import Mathlib

/-!
Shallow embedding of the budget tracker (src/Budget_tracker.py).

Modelling choices:

* Monetary amounts (Python floats) are modelled as exact rationals.
* The observable side effects of a call — desktop notifications
  (notify_user), the append to the transaction history, and the
  st.error / st.success status messages shown to the caller — are
  collected, in program order, into a list of events returned next to
  the updated tracker state.
* A datetime value is modelled by the two observations the code makes
  of it: an absolute time in seconds (so that subtraction yields a
  timedelta whose whole-day count is the floor of seconds/86400,
  exactly like timedelta.days) and the calendar month component.
* The Python string formatting :.2f is modelled by exact two-decimal
  rendering of the rational amount.
-/

set_option autoImplicit false

/-- Recorded transaction: the dict appended to self.transactions, with the
kind string stored exactly as the caller passed it. -/
structure Transaction where
  amount : ℚ
  category : String
  type : String
deriving DecidableEq

/-- Instant in time, as observed by the code: absolute seconds (datetime
subtraction) and the calendar month component (the .month attribute). -/
structure DateTime where
  seconds : ℤ
  month : ℕ
deriving DecidableEq

/-- Whole elapsed days of the timedelta now - last, i.e. (now - last).days:
Python timedelta normalizes so that days is the floor of the total elapsed
seconds divided by 86400. -/
def timedeltaDays (now last : DateTime) : ℤ :=
  Int.fdiv (now.seconds - last.seconds) 86400

/-- Recurring transaction record: the dict appended to
self.recurring_transactions. -/
structure RecurringTransaction where
  amount : ℚ
  category : String
  type : String
  frequency : String
  last_added : DateTime
deriving DecidableEq

/-- Observable side effect of a tracker operation, in program order:
a desktop notification (notify_user with its title and message), the
append of a transaction to the history, and the st.error / st.success
status shown to the caller. -/
inductive Event where
  | notify (title message : String) : Event
  | append (t : Transaction) : Event
  | error (message : String) : Event
  | success (message : String) : Event
deriving DecidableEq

/-- Tests whether an event is a desktop notification (an alert). -/
def isNotify : Event → Bool
  | Event.notify _ _ => true
  | _ => false

/-- Tests whether an event is a Large Expense Alert notification. -/
def isLargeExpenseAlert : Event → Bool
  | Event.notify title _ => title == "Large Expense Alert"
  | _ => false

/-- Tests whether an event is a Low Balance Alert notification. -/
def isLowBalanceAlert : Event → Bool
  | Event.notify title _ => title == "Low Balance Alert"
  | _ => false

/-- Tests whether an event is the append of a transaction to the history. -/
def isAppend : Event → Bool
  | Event.append _ => true
  | _ => false

/-- Models the Python str.lower method (on the ASCII range): every
character lower-cased. Defined by a structural map over the characters so
that it evaluates on concrete strings. -/
def strLower (str : String) : String :=
  String.mk (str.data.map Char.toLower)

/-- Renders a nonnegative number of cents with two decimal places. -/
def fmtCents (c : ℕ) : String :=
  toString (c / 100) ++ "." ++ (if c % 100 < 10 then "0" else "") ++ toString (c % 100)

/-- Two-decimal rendering of an amount, modelling the format :.2f applied
to the exact rational value. -/
def fmt2 (q : ℚ) : String :=
  if q < 0 then "-" ++ fmtCents (Int.toNat ⌊(-q) * 100 + 1 / 2⌋)
  else fmtCents (Int.toNat ⌊q * 100 + 1 / 2⌋)

/-- The st.error message for an unrecognized transaction type. -/
def invalidTypeMsg : String :=
  "Invalid transaction type. Use \x27income\x27 or \x27expense\x27."

/-- The message of the Large Expense Alert notification. -/
def largeExpenseMsg (amount : ℚ) (category : String) : String :=
  "A large expense of $" ++ fmt2 amount ++ " was recorded in the \x27" ++ category
    ++ "\x27 category."

/-- The st.success message reported after a transaction is recorded. -/
def successMsg (transaction_type : String) (amount : ℚ) (category : String) : String :=
  "Transaction added: " ++ transaction_type ++ " of $" ++ fmt2 amount ++ " in \x27"
    ++ category ++ "\x27 category."

/-- The message of the Low Balance Alert notification. -/
def lowBalanceMsg (threshold balance : ℚ) : String :=
  "Your balance is below the threshold ($" ++ fmt2 threshold ++ "). Current balance: $"
    ++ fmt2 balance ++ "."

/-- The tracker state: running balance, transaction history, the two alert
thresholds, and the recurring-transaction rules. -/
structure BudgetTracker where
  balance : ℚ
  transactions : List Transaction
  balance_threshold : ℚ
  large_expense_threshold : ℚ
  recurring_transactions : List RecurringTransaction
deriving DecidableEq

namespace BudgetTracker

/-- The freshly constructed tracker (the constructor): balance 0.0, empty
history, thresholds 100.0 and 500.0, no recurring rules. -/
def initial : BudgetTracker where
  balance := 0
  transactions := []
  balance_threshold := 100
  large_expense_threshold := 500
  recurring_transactions := []

/-- Common tail of add_transaction after the branch on the kind: append the
transaction dict to the history, report st.success, then check the
low-balance threshold. The pending events are the ones the branch already
emitted (the Large Expense Alert, when it fired). -/
def finishTransaction (s : BudgetTracker) (amount : ℚ)
    (category transaction_type : String) (pending : List Event) :
    BudgetTracker × List Event :=
  let t : Transaction := { amount := amount, category := category, type := transaction_type }
  let s2 := { s with transactions := s.transactions ++ [t] }
  let evs := pending ++
    [Event.append t, Event.success (successMsg transaction_type amount category)]
  if s2.balance < s2.balance_threshold then
    (s2, evs ++ [Event.notify "Low Balance Alert" (lowBalanceMsg s2.balance_threshold s2.balance)])
  else
    (s2, evs)

/-- BudgetTracker.add_transaction: case-insensitive dispatch on the kind,
incremental balance update, Large Expense Alert inside the expense branch,
then the common tail (append, st.success, low-balance check). An
unrecognized kind reports st.error and returns with the state untouched. -/
def add_transaction (s : BudgetTracker) (amount : ℚ)
    (category transaction_type : String) : BudgetTracker × List Event :=
  if strLower transaction_type == "income" then
    finishTransaction { s with balance := s.balance + amount }
      amount category transaction_type []
  else if strLower transaction_type == "expense" then
    finishTransaction { s with balance := s.balance - amount }
      amount category transaction_type
      (if amount > s.large_expense_threshold then
        [Event.notify "Large Expense Alert" (largeExpenseMsg amount category)]
      else [])
  else
    (s, [Event.error invalidTypeMsg])

/-- BudgetTracker.add_recurring_transaction: append a new recurring rule
with last_added set to the current time. -/
def add_recurring_transaction (s : BudgetTracker) (amount : ℚ)
    (category transaction_type frequency : String) (now : DateTime) :
    BudgetTracker × List Event :=
  let r : RecurringTransaction :=
    { amount := amount, category := category, type := transaction_type,
      frequency := frequency, last_added := now }
  ({ s with recurring_transactions := s.recurring_transactions ++ [r] },
   [Event.success ("Recurring transaction added: " ++ transaction_type ++ " of $"
      ++ fmt2 amount ++ " in \x27" ++ category ++ "\x27 category, " ++ frequency ++ ".")])

/-- Body of the loop in process_recurring_transactions for a single rule:
first matching frequency branch fires the rule via add_transaction and
advances last_added to now. -/
def processRule (s : BudgetTracker) (r : RecurringTransaction) (now : DateTime) :
    BudgetTracker × RecurringTransaction × List Event :=
  if r.frequency = "daily" ∧ timedeltaDays now r.last_added ≥ 1 then
    let p := add_transaction s r.amount r.category r.type
    (p.1, { r with last_added := now }, p.2)
  else if r.frequency = "weekly" ∧ timedeltaDays now r.last_added ≥ 7 then
    let p := add_transaction s r.amount r.category r.type
    (p.1, { r with last_added := now }, p.2)
  else if r.frequency = "monthly" ∧ now.month ≠ r.last_added.month then
    let p := add_transaction s r.amount r.category r.type
    (p.1, { r with last_added := now }, p.2)
  else
    (s, r, [])

/-- The loop of process_recurring_transactions over the rule list, threading
the tracker state and collecting the updated rules and the events. -/
def processRules (s : BudgetTracker) (rules : List RecurringTransaction)
    (now : DateTime) : BudgetTracker × List RecurringTransaction × List Event :=
  match rules with
  | [] => (s, [], [])
  | r :: rest =>
    let p := processRule s r now
    let q := processRules p.1 rest now
    (q.1, p.2.1 :: q.2.1, p.2.2 ++ q.2.2)

/-- BudgetTracker.process_recurring_transactions: scan the recurring rules,
firing each whose interval has elapsed (the rules are updated in place). -/
def process_recurring_transactions (s : BudgetTracker) (now : DateTime) :
    BudgetTracker × List Event :=
  let p := processRules s s.recurring_transactions now
  ({ p.1 with recurring_transactions := p.2.1 }, p.2.2)

/-- BudgetTracker.view_balance. -/
def view_balance (s : BudgetTracker) : String :=
  "Current Balance: $" ++ fmt2 s.balance

/-- Models the Python str.capitalize method: first character upper-cased,
the rest lower-cased. -/
def capitalize (str : String) : String :=
  match str.data with
  | [] => ""
  | c :: cs => String.mk (c.toUpper :: cs.map Char.toLower)

/-- One line of the transaction listing, for the 1-based index produced by
enumerate(self.transactions, 1). -/
def transactionLine (idx : ℕ) (t : Transaction) : String :=
  toString idx ++ ". " ++ capitalize t.type ++ ": $" ++ fmt2 t.amount
    ++ " (" ++ t.category ++ ")"

/-- BudgetTracker.view_transactions: the explicit no-transactions message on
an empty history, otherwise the newline-joined 1-indexed listing in
insertion order. A pure read accessor — it takes the state and returns only
a string, so it cannot mutate the tracker. -/
def view_transactions (s : BudgetTracker) : String :=
  if s.transactions = [] then "No transactions recorded."
  else String.intercalate "\n"
    ((List.enumFrom 1 s.transactions).map fun p => transactionLine p.1 p.2)

/-- Signed view of a recorded transaction, used to recompute the balance
from the history: income counts positively, anything else negatively. The
kind is matched case-insensitively, as in the balance update of
add_transaction (visualize_data compares the raw string against
"expense"; for the lower-case kinds the UI passes the two agree). -/
def signedAmount (t : Transaction) : ℚ :=
  if strLower t.type == "income" then t.amount else -t.amount

/-- Sum of the signed amounts of a transaction list. -/
def signedSum (ts : List Transaction) : ℚ :=
  (ts.map signedAmount).sum

/-- One requested add_transaction call: the argument triple. -/
structure TxInput where
  amount : ℚ
  category : String
  transaction_type : String

/-- Runs a sequence of add_transaction calls, keeping only the state. -/
def applyAll (s : BudgetTracker) (ops : List TxInput) : BudgetTracker :=
  ops.foldl (fun st op => (add_transaction st op.amount op.category op.transaction_type).1) s

end BudgetTracker

open BudgetTracker

/-! Helper lemmas shared by the claims. -/

/-- Explicit description of the common tail of add_transaction. -/
theorem finishTransaction_eq (s : BudgetTracker) (amount : ℚ)
    (category ty : String) (pending : List Event) :
    finishTransaction s amount category ty pending =
      ({ s with transactions := s.transactions ++ [⟨amount, category, ty⟩] },
       pending ++ [Event.append ⟨amount, category, ty⟩,
                   Event.success (successMsg ty amount category)] ++
         (if s.balance < s.balance_threshold then
            [Event.notify "Low Balance Alert" (lowBalanceMsg s.balance_threshold s.balance)]
          else [])) := by
  simp only [finishTransaction]
  split <;> simp

/-- An add_transaction call whose kind lower-cases to income takes the
income branch. -/
theorem add_transaction_income (s : BudgetTracker) (amount : ℚ)
    (category ty : String) (h : strLower ty = "income") :
    add_transaction s amount category ty =
      finishTransaction { s with balance := s.balance + amount }
        amount category ty [] := by
  simp [add_transaction, h]

/-- An add_transaction call whose kind lower-cases to expense takes the
expense branch. -/
theorem add_transaction_expense (s : BudgetTracker) (amount : ℚ)
    (category ty : String) (h : strLower ty = "expense") :
    add_transaction s amount category ty =
      finishTransaction { s with balance := s.balance - amount }
        amount category ty
        (if amount > s.large_expense_threshold then
          [Event.notify "Large Expense Alert" (largeExpenseMsg amount category)]
        else []) := by
  simp [add_transaction, h]

/-- An add_transaction call with an unrecognized kind reports st.error and
leaves the entire state untouched. -/
theorem add_transaction_invalid (s : BudgetTracker) (amount : ℚ)
    (category ty : String) (h1 : strLower ty ≠ "income") (h2 : strLower ty ≠ "expense") :
    add_transaction s amount category ty = (s, [Event.error invalidTypeMsg]) := by
  simp [add_transaction, h1, h2]

/-- The signed sum over an extended history adds the new signed amount. -/
theorem signedSum_append (ts : List Transaction) (t : Transaction) :
    signedSum (ts ++ [t]) = signedSum ts + signedAmount t := by
  simp [signedSum]

/-- One add_transaction call preserves the balance-recomputability
invariant. -/
theorem balance_signedSum_step (s : BudgetTracker) (amount : ℚ)
    (category ty : String) (h : s.balance = signedSum s.transactions) :
    (add_transaction s amount category ty).1.balance
      = signedSum (add_transaction s amount category ty).1.transactions := by
  by_cases h1 : strLower ty = "income"
  · rw [add_transaction_income s amount category ty h1, finishTransaction_eq]
    simp [signedSum_append, signedAmount, h1, h]
  · by_cases h2 : strLower ty = "expense"
    · rw [add_transaction_expense s amount category ty h2, finishTransaction_eq]
      simp [signedSum_append, signedAmount, h1, h2, h, sub_eq_add_neg]
    · rw [add_transaction_invalid s amount category ty h1 h2]
      exact h

/-- The invariant for applyAll, generalized over the starting state. -/
theorem applyAll_balance_signedSum (ops : List TxInput) (s : BudgetTracker)
    (h : s.balance = signedSum s.transactions) :
    (applyAll s ops).balance = signedSum (applyAll s ops).transactions := by
  induction ops generalizing s with
  | nil => exact h
  | cons op rest ih =>
    exact ih _ (balance_signedSum_step s op.amount op.category op.transaction_type h)

/-- C1: for every sequence of add_transaction calls (any mix of valid and
invalid kinds, any amounts) starting from the fresh tracker, the running
balance equals the sum of the signed amounts of the transactions in the
history (income positive, expense negative): the incrementally maintained
balance is always recomputable from the history. -/
theorem c1_balance_recomputable_from_history (ops : List TxInput) :
    (applyAll initial ops).balance = signedSum (applyAll initial ops).transactions :=
  applyAll_balance_signedSum ops initial (by simp [initial, signedSum])

/-- C2 counterexample: on the fresh tracker (thresholds 100.0 and 500.0),
add_transaction(50, "Salary", "income") does emit an alert — the resulting
balance 50.0 is below the low-balance threshold 100.0 — so the claimed
"no alerts" outcome of the first step is false. -/
theorem c2_counterexample :
    ¬ ((add_transaction initial 50 "Salary" "income").2.filter isNotify = []) := by
  rw [add_transaction_income initial 50 "Salary" "income" (by decide), finishTransaction_eq]
  norm_num [initial, isNotify, List.filter]

/-- C2 amended: the first call yields balance 50.0 and emits exactly one
alert, a low-balance alert (50 < 100); the subsequent
add_transaction(600, "Rent", "expense") yields balance -550.0 and emits
exactly one large-expense alert and exactly one low-balance alert. -/
theorem c2_amended_scenario :
    (add_transaction initial 50 "Salary" "income").1.balance = 50 ∧
    ((add_transaction initial 50 "Salary" "income").2.filter isLargeExpenseAlert).length = 0 ∧
    ((add_transaction initial 50 "Salary" "income").2.filter isLowBalanceAlert).length = 1 ∧
    ((add_transaction initial 50 "Salary" "income").2.filter isNotify).length = 1 ∧
    (add_transaction (add_transaction initial 50 "Salary" "income").1
        600 "Rent" "expense").1.balance = -550 ∧
    ((add_transaction (add_transaction initial 50 "Salary" "income").1
        600 "Rent" "expense").2.filter isLargeExpenseAlert).length = 1 ∧
    ((add_transaction (add_transaction initial 50 "Salary" "income").1
        600 "Rent" "expense").2.filter isLowBalanceAlert).length = 1 := by
  rw [add_transaction_income initial 50 "Salary" "income" (by decide), finishTransaction_eq]
  rw [add_transaction_expense _ 600 "Rent" "expense" (by decide), finishTransaction_eq]
  norm_num [initial, isNotify, isLargeExpenseAlert, isLowBalanceAlert, List.filter]
  decide

/-- C3: for every tracker state and every transaction_type string that is
neither "income" nor "expense" after lower-casing, add_transaction leaves
the whole state (balance, history, recurring rules) unchanged, emits no
notification, and reports an st.error to the caller instead of raising. -/
theorem c3_invalid_kind_aborts (s : BudgetTracker) (amount : ℚ)
    (category ty : String) (h1 : strLower ty ≠ "income") (h2 : strLower ty ≠ "expense") :
    (add_transaction s amount category ty).1 = s ∧
    (add_transaction s amount category ty).2 = [Event.error invalidTypeMsg] ∧
    (add_transaction s amount category ty).2.filter isNotify = [] := by
  rw [add_transaction_invalid s amount category ty h1 h2]
  exact ⟨rfl, rfl, rfl⟩

/-- Witness for C3 at a concrete input: the kind "transfer" is rejected on
the fresh tracker with amount 5 and category "misc". -/
theorem c3_invalid_kind_aborts_witness :
    (add_transaction initial 5 "misc" "transfer").1 = initial ∧
    (add_transaction initial 5 "misc" "transfer").2 = [Event.error invalidTypeMsg] ∧
    (add_transaction initial 5 "misc" "transfer").2.filter isNotify = [] :=
  c3_invalid_kind_aborts initial 5 "misc" "transfer" (by decide) (by decide)

/-- C4: for every state, an add_transaction with kind expense and amount
strictly above large_expense_threshold emits exactly one large-expense
alert, and that alert is emitted before the append of the transaction to
the history (it is the only large-expense alert among the events preceding
the first append); an expense with amount equal to the threshold emits no
large-expense alert; an income transaction never emits one. -/
theorem c4_large_expense_alert (s : BudgetTracker) (amount : ℚ) (category ty : String) :
    (strLower ty = "expense" →
      (amount > s.large_expense_threshold →
        ((add_transaction s amount category ty).2.filter isLargeExpenseAlert).length = 1 ∧
        (((add_transaction s amount category ty).2.takeWhile
            fun e => !isAppend e).filter isLargeExpenseAlert).length = 1) ∧
      (amount = s.large_expense_threshold →
        ((add_transaction s amount category ty).2.filter isLargeExpenseAlert).length = 0)) ∧
    (strLower ty = "income" →
      ((add_transaction s amount category ty).2.filter isLargeExpenseAlert).length = 0) := by
  constructor
  · intro hty
    rw [add_transaction_expense s amount category ty hty, finishTransaction_eq]
    constructor
    · intro hgt
      rw [if_pos hgt]
      constructor
      · simp only [List.filter_append, List.length_append]
        simp [List.filter, isLargeExpenseAlert]
      · simp [List.takeWhile, isAppend, isLargeExpenseAlert, List.filter]
    · intro heq
      rw [if_neg (by simp [heq])]
      simp only [List.nil_append, List.filter_append, List.length_append]
      simp [List.filter, isLargeExpenseAlert]
  · intro hty
    rw [add_transaction_income s amount category ty hty, finishTransaction_eq]
    simp only [List.nil_append, List.filter_append, List.length_append]
    simp [List.filter, isLargeExpenseAlert]

/-- Witness for C4 at concrete inputs: on the fresh tracker (threshold
500.0) an expense of 600 emits exactly one large-expense alert, an expense
of exactly 500 emits none, and an income of 600 emits none. -/
theorem c4_large_expense_alert_witness :
    ((add_transaction initial 600 "Rent" "expense").2.filter isLargeExpenseAlert).length = 1 ∧
    ((add_transaction initial 500 "Rent" "expense").2.filter isLargeExpenseAlert).length = 0 ∧
    ((add_transaction initial 600 "Pay" "income").2.filter isLargeExpenseAlert).length = 0 :=
  ⟨(((c4_large_expense_alert initial 600 "Rent" "expense").1 (by decide)).1
      (by norm_num [initial])).1,
   ((c4_large_expense_alert initial 500 "Rent" "expense").1 (by decide)).2
      (by norm_num [initial]),
   (c4_large_expense_alert initial 600 "Pay" "income").2 (by decide)⟩

/-- C5: after an add_transaction call with a recognized kind (income or
expense), if the resulting balance is strictly below the low-balance
threshold then exactly one low-balance alert is emitted, and if the
resulting balance equals the threshold then none is emitted. -/
theorem c5_low_balance_alert (s : BudgetTracker) (amount : ℚ) (category ty : String)
    (hty : strLower ty = "income" ∨ strLower ty = "expense") :
    ((add_transaction s amount category ty).1.balance
        < (add_transaction s amount category ty).1.balance_threshold →
      ((add_transaction s amount category ty).2.filter isLowBalanceAlert).length = 1) ∧
    ((add_transaction s amount category ty).1.balance
        = (add_transaction s amount category ty).1.balance_threshold →
      ((add_transaction s amount category ty).2.filter isLowBalanceAlert).length = 0) := by
  rcases hty with h | h
  · rw [add_transaction_income s amount category ty h, finishTransaction_eq]
    constructor
    · intro hlt
      simp only at hlt
      rw [if_pos hlt]
      simp [List.filter, isLowBalanceAlert]
    · intro heq
      simp only at heq
      rw [if_neg (by rw [heq]; exact lt_irrefl _)]
      simp [List.filter, isLowBalanceAlert]
  · rw [add_transaction_expense s amount category ty h, finishTransaction_eq]
    constructor
    · intro hlt
      simp only at hlt
      rw [if_pos hlt]
      simp only [List.filter_append, List.length_append]
      simp [List.filter, isLowBalanceAlert]
    · intro heq
      simp only at heq
      have hnlt : ¬ (s.balance - amount < s.balance_threshold) := by
        rw [heq]; exact lt_irrefl _
      rw [if_neg hnlt]
      simp only [List.filter_append, List.length_append]
      simp [List.filter, isLowBalanceAlert]

/-- Witness for C5 at concrete inputs: on the fresh tracker an income of 0
leaves the balance 0 below the threshold 100 and exactly one low-balance
alert is emitted. -/
theorem c5_low_balance_alert_witness :
    (add_transaction initial 0 "none" "income").1.balance
        < (add_transaction initial 0 "none" "income").1.balance_threshold ∧
    ((add_transaction initial 0 "none" "income").2.filter isLowBalanceAlert).length = 1 := by
  have hlt : (add_transaction initial 0 "none" "income").1.balance
      < (add_transaction initial 0 "none" "income").1.balance_threshold := by
    rw [add_transaction_income initial 0 "none" "income" (by decide), finishTransaction_eq]
    norm_num [initial]
  exact ⟨hlt, (c5_low_balance_alert initial 0 "none" "income" (Or.inl (by decide))).1 hlt⟩

/-- C10: kind matching is case-insensitive: when the kind string
lower-cases to income or expense, the resulting balance and the emitted
notifications are identical to those of the call with the lower-cased
kind, while the history entry stores the kind string exactly as passed,
un-normalized. -/
theorem c10_case_insensitive_kind (s : BudgetTracker) (amount : ℚ) (category k : String)
    (h : strLower k = "income" ∨ strLower k = "expense") :
    (add_transaction s amount category k).1.balance
        = (add_transaction s amount category (strLower k)).1.balance ∧
    (add_transaction s amount category k).2.filter isNotify
        = (add_transaction s amount category (strLower k)).2.filter isNotify ∧
    (add_transaction s amount category k).1.transactions
        = s.transactions ++ [⟨amount, category, k⟩] ∧
    (add_transaction s amount category (strLower k)).1.transactions
        = s.transactions ++ [⟨amount, category, strLower k⟩] := by
  rcases h with h | h
  · rw [h, add_transaction_income s amount category k h,
       add_transaction_income s amount category "income" (by decide),
       finishTransaction_eq, finishTransaction_eq]
    refine ⟨rfl, ?_, rfl, rfl⟩
    simp only [List.nil_append, List.filter_append]
    simp [List.filter, isNotify]
  · rw [h, add_transaction_expense s amount category k h,
       add_transaction_expense s amount category "expense" (by decide),
       finishTransaction_eq, finishTransaction_eq]
    refine ⟨rfl, ?_, rfl, rfl⟩
    simp only [List.filter_append]
    simp [List.filter, isNotify]

/-- Witness for C10 at a concrete input: the kind "InCoMe" behaves exactly
like "income" on the fresh tracker while being stored un-normalized. -/
theorem c10_case_insensitive_kind_witness :
    (add_transaction initial 30 "Pay" "InCoMe").1.balance
        = (add_transaction initial 30 "Pay" (strLower "InCoMe")).1.balance ∧
    (add_transaction initial 30 "Pay" "InCoMe").2.filter isNotify
        = (add_transaction initial 30 "Pay" (strLower "InCoMe")).2.filter isNotify ∧
    (add_transaction initial 30 "Pay" "InCoMe").1.transactions
        = initial.transactions ++ [⟨30, "Pay", "InCoMe"⟩] ∧
    (add_transaction initial 30 "Pay" (strLower "InCoMe")).1.transactions
        = initial.transactions ++ [⟨30, "Pay", strLower "InCoMe"⟩] :=
  c10_case_insensitive_kind initial 30 "Pay" "InCoMe" (Or.inl (by decide))

/-- Processing a single-rule list threads the state through processRule. -/
theorem processRules_singleton (s : BudgetTracker) (r : RecurringTransaction)
    (now : DateTime) :
    processRules s [r] now =
      ((processRule s r now).1, [(processRule s r now).2.1], (processRule s r now).2.2) := by
  simp [processRules]

/-- process_recurring_transactions on a tracker holding exactly one rule. -/
theorem process_recurring_singleton (s : BudgetTracker) (r : RecurringTransaction)
    (now : DateTime) (hr : s.recurring_transactions = [r]) :
    process_recurring_transactions s now =
      ({ (processRule s r now).1 with
          recurring_transactions := [(processRule s r now).2.1] },
       (processRule s r now).2.2) := by
  rw [process_recurring_transactions, hr, processRules_singleton]

/-- processRule on a daily rule fires exactly when at least one whole day
has elapsed. -/
theorem processRule_daily (s : BudgetTracker) (r : RecurringTransaction)
    (now : DateTime) (hf : r.frequency = "daily") :
    processRule s r now =
      if timedeltaDays now r.last_added ≥ 1 then
        ((add_transaction s r.amount r.category r.type).1,
         { r with last_added := now },
         (add_transaction s r.amount r.category r.type).2)
      else (s, r, []) := by
  simp [processRule, hf]

/-- processRule on a weekly rule fires exactly when at least seven whole
days have elapsed. -/
theorem processRule_weekly (s : BudgetTracker) (r : RecurringTransaction)
    (now : DateTime) (hf : r.frequency = "weekly") :
    processRule s r now =
      if timedeltaDays now r.last_added ≥ 7 then
        ((add_transaction s r.amount r.category r.type).1,
         { r with last_added := now },
         (add_transaction s r.amount r.category r.type).2)
      else (s, r, []) := by
  simp [processRule, hf]

/-- processRule on a monthly rule fires exactly when the calendar month
component of now differs from that of last_added. -/
theorem processRule_monthly (s : BudgetTracker) (r : RecurringTransaction)
    (now : DateTime) (hf : r.frequency = "monthly") :
    processRule s r now =
      if now.month ≠ r.last_added.month then
        ((add_transaction s r.amount r.category r.type).1,
         { r with last_added := now },
         (add_transaction s r.amount r.category r.type).2)
      else (s, r, []) := by
  simp [processRule, hf]

/-- A December instant (month component 12). -/
def decYearStart : DateTime := ⟨0, 12⟩

/-- The instant exactly 365 days (12 calendar months) later: same month
component 12. -/
def decNextYear : DateTime := ⟨31536000, 12⟩

/-- A tracker holding one monthly recurring expense rule last fired at
decYearStart. -/
def monthlyRuleTracker : BudgetTracker :=
  { initial with recurring_transactions :=
      [{ amount := 200, category := "Rent", type := "expense",
         frequency := "monthly", last_added := decYearStart }] }

/-- C6 counterexample: a monthly rule whose last_fired lies exactly twelve
months in the past (December to the following December: the month
component is 12 both times) is NOT judged elapsed — the evaluation pass
materializes nothing and leaves the whole tracker, the rule and its
last_added included, unchanged. -/
theorem c6_counterexample :
    (process_recurring_transactions monthlyRuleTracker decNextYear).1.transactions = [] ∧
    (process_recurring_transactions monthlyRuleTracker decNextYear).1 = monthlyRuleTracker ∧
    (process_recurring_transactions monthlyRuleTracker decNextYear).2 = [] := by
  have h := process_recurring_singleton monthlyRuleTracker
    { amount := 200, category := "Rent", type := "expense",
      frequency := "monthly", last_added := decYearStart } decNextYear rfl
  rw [processRule_monthly _ _ _ rfl, if_neg (by decide)] at h
  rw [h]
  exact ⟨rfl, rfl, rfl⟩

/-- C6 amended: process_recurring_transactions judges a monthly rule
elapsed exactly when the calendar month component of now differs from that
of last_fired; in particular a monthly rule whose last_fired lies a whole
number of years in the past (equal month components) is NOT materialized
on the next evaluation pass, while a rule whose month component differs is
materialized once via add_transaction with last_added advanced to now. -/
theorem c6_monthly_month_only_comparison (s : BudgetTracker)
    (r : RecurringTransaction) (now : DateTime)
    (hr : s.recurring_transactions = [r]) (hf : r.frequency = "monthly") :
    (now.month = r.last_added.month →
      process_recurring_transactions s now = (s, [])) ∧
    (now.month ≠ r.last_added.month →
      process_recurring_transactions s now =
        ({ (add_transaction s r.amount r.category r.type).1 with
            recurring_transactions := [{ r with last_added := now }] },
         (add_transaction s r.amount r.category r.type).2)) := by
  constructor
  · intro hm
    rw [process_recurring_singleton s r now hr, processRule_monthly s r now hf,
        if_neg (by simp [hm]), ← hr]
  · intro hm
    rw [process_recurring_singleton s r now hr, processRule_monthly s r now hf,
        if_pos hm]

/-- Witness for C6 amended at the concrete December-to-December input: the
month components agree and the pass changes nothing. -/
theorem c6_monthly_month_only_comparison_witness :
    decNextYear.month = decYearStart.month ∧
    process_recurring_transactions monthlyRuleTracker decNextYear
      = (monthlyRuleTracker, []) :=
  ⟨rfl, (c6_monthly_month_only_comparison monthlyRuleTracker
      { amount := 200, category := "Rent", type := "expense",
        frequency := "monthly", last_added := decYearStart }
      decNextYear rfl rfl).1 rfl⟩

/-- C9: when a single-rule tracker processes a rule whose interval has
elapsed but whose type is neither "income" nor "expense" (after
lower-casing), the delegated add_transaction aborts — no transaction is
appended and the balance is unchanged — yet the last_added of the rule is still
advanced to now, so the missed firing is silently consumed; the only event
is the st.error report. -/
theorem c9_invalid_rule_consumes_firing (s : BudgetTracker)
    (r : RecurringTransaction) (now : DateTime)
    (hr : s.recurring_transactions = [r])
    (h1 : strLower r.type ≠ "income") (h2 : strLower r.type ≠ "expense")
    (helapsed : (r.frequency = "daily" ∧ timedeltaDays now r.last_added ≥ 1)
      ∨ (r.frequency = "weekly" ∧ timedeltaDays now r.last_added ≥ 7)
      ∨ (r.frequency = "monthly" ∧ now.month ≠ r.last_added.month)) :
    (process_recurring_transactions s now).1.transactions = s.transactions ∧
    (process_recurring_transactions s now).1.balance = s.balance ∧
    (process_recurring_transactions s now).1.recurring_transactions
      = [{ r with last_added := now }] ∧
    (process_recurring_transactions s now).2 = [Event.error invalidTypeMsg] := by
  rw [process_recurring_singleton s r now hr]
  have hadd := add_transaction_invalid s r.amount r.category r.type h1 h2
  rcases helapsed with ⟨hf, hd⟩ | ⟨hf, hd⟩ | ⟨hf, hd⟩
  · rw [processRule_daily s r now hf, if_pos hd, hadd]
    exact ⟨rfl, rfl, rfl, rfl⟩
  · rw [processRule_weekly s r now hf, if_pos hd, hadd]
    exact ⟨rfl, rfl, rfl, rfl⟩
  · rw [processRule_monthly s r now hf, if_pos hd, hadd]
    exact ⟨rfl, rfl, rfl, rfl⟩

/-- A tracker holding one daily recurring rule with the invalid type
"transfer", last fired at second 0. -/
def invalidDailyTracker : BudgetTracker :=
  { initial with recurring_transactions :=
      [{ amount := 10, category := "Gym", type := "transfer",
         frequency := "daily", last_added := ⟨0, 1⟩ }] }

/-- Witness for C9 at a concrete input: the invalid daily rule, evaluated
25 hours after creation, appends nothing, changes no balance, reports the
error, and still advances last_added. -/
theorem c9_invalid_rule_consumes_firing_witness :
    (process_recurring_transactions invalidDailyTracker ⟨90000, 1⟩).1.transactions
      = invalidDailyTracker.transactions ∧
    (process_recurring_transactions invalidDailyTracker ⟨90000, 1⟩).1.balance
      = invalidDailyTracker.balance ∧
    (process_recurring_transactions invalidDailyTracker ⟨90000, 1⟩).1.recurring_transactions
      = [{ amount := 10, category := "Gym", type := "transfer",
           frequency := "daily", last_added := ⟨90000, 1⟩ }] ∧
    (process_recurring_transactions invalidDailyTracker ⟨90000, 1⟩).2
      = [Event.error invalidTypeMsg] :=
  c9_invalid_rule_consumes_firing invalidDailyTracker
    { amount := 10, category := "Gym", type := "transfer",
      frequency := "daily", last_added := ⟨0, 1⟩ }
    ⟨90000, 1⟩ rfl (by decide) (by decide) (Or.inl ⟨rfl, by decide⟩)

/-- One add_transaction call appends at most one transaction. -/
theorem add_transaction_transactions_length (s : BudgetTracker) (amount : ℚ)
    (category ty : String) :
    (add_transaction s amount category ty).1.transactions.length
      ≤ s.transactions.length + 1 := by
  by_cases h1 : strLower ty = "income"
  · rw [add_transaction_income s amount category ty h1, finishTransaction_eq]
    simp
  · by_cases h2 : strLower ty = "expense"
    · rw [add_transaction_expense s amount category ty h2, finishTransaction_eq]
      simp
    · rw [add_transaction_invalid s amount category ty h1 h2]
      exact Nat.le_succ _

/-- Evaluating one rule appends at most one transaction. -/
theorem processRule_transactions_length (s : BudgetTracker)
    (r : RecurringTransaction) (now : DateTime) :
    (processRule s r now).1.transactions.length ≤ s.transactions.length + 1 := by
  simp only [processRule]
  split
  · exact add_transaction_transactions_length s r.amount r.category r.type
  split
  · exact add_transaction_transactions_length s r.amount r.category r.type
  split
  · exact add_transaction_transactions_length s r.amount r.category r.type
  · exact Nat.le_succ _

/-- The recurring-rule scan appends at most one transaction per rule. -/
theorem processRules_transactions_length (rules : List RecurringTransaction)
    (s : BudgetTracker) (now : DateTime) :
    (processRules s rules now).1.transactions.length
      ≤ s.transactions.length + rules.length := by
  induction rules generalizing s with
  | nil => simp [processRules]
  | cons r rest ih =>
    simp only [processRules, List.length_cons]
    calc (processRules (processRule s r now).1 rest now).1.transactions.length
        ≤ (processRule s r now).1.transactions.length + rest.length := ih _
      _ ≤ s.transactions.length + 1 + rest.length :=
          Nat.add_le_add_right (processRule_transactions_length s r now) _
      _ = s.transactions.length + (rest.length + 1) := by omega

/-- A tracker holding one daily recurring expense rule created at second 0
(a daily rule created at time T). -/
def dailyRuleTracker : BudgetTracker :=
  { initial with recurring_transactions :=
      [{ amount := 100, category := "Rent", type := "expense",
         frequency := "daily", last_added := ⟨0, 3⟩ }] }

/-- C7: every process_recurring_transactions call materializes at most one
transaction per rule, no matter how many intervals have elapsed (the
history grows by at most the number of rules); and in the concrete
scenario — a daily rule created at time T, processed at T+25 hours
(second 90000) and again at T+26 hours (second 93600) — exactly one
transaction is materialized in total across the two calls. -/
theorem c7_at_most_one_materialization_per_rule :
    (∀ (s : BudgetTracker) (now : DateTime),
        (process_recurring_transactions s now).1.transactions.length
          ≤ s.transactions.length + s.recurring_transactions.length) ∧
    (process_recurring_transactions
        (process_recurring_transactions dailyRuleTracker ⟨90000, 3⟩).1
        ⟨93600, 3⟩).1.transactions.length = 1 := by
  constructor
  · intro s now
    simp only [process_recurring_transactions]
    exact processRules_transactions_length s.recurring_transactions s now
  · have h1 : (process_recurring_transactions dailyRuleTracker ⟨90000, 3⟩).1
        = { balance := -100, transactions := [⟨100, "Rent", "expense"⟩],
            balance_threshold := 100, large_expense_threshold := 500,
            recurring_transactions :=
              [{ amount := 100, category := "Rent", type := "expense",
                 frequency := "daily", last_added := ⟨90000, 3⟩ }] } := by
      rw [process_recurring_singleton dailyRuleTracker
            { amount := 100, category := "Rent", type := "expense",
              frequency := "daily", last_added := ⟨0, 3⟩ } ⟨90000, 3⟩ rfl,
          processRule_daily _ _ _ rfl, if_pos (by decide),
          add_transaction_expense _ _ _ _ (by decide), finishTransaction_eq]
      norm_num [dailyRuleTracker, initial]
    rw [h1, process_recurring_singleton _
          { amount := 100, category := "Rent", type := "expense",
            frequency := "daily", last_added := ⟨90000, 3⟩ } ⟨93600, 3⟩ rfl,
        processRule_daily _ _ _ rfl, if_neg (by decide)]
    rfl

/-- C8: view_transactions on an empty history returns the distinguishable
"No transactions recorded." message rather than the empty listing; on a
non-empty history it returns the newline-joined listing with one line per
transaction, 1-indexed, in insertion order. It is a pure read accessor
from the state to a string, so it never mutates the ledger. -/
theorem c8_transaction_listing (s : BudgetTracker) :
    view_transactions initial = "No transactions recorded." ∧
    (s.transactions = [] → view_transactions s = "No transactions recorded.") ∧
    "No transactions recorded." ≠ String.intercalate "\n" [] ∧
    (s.transactions ≠ [] →
      ∃ lines : List String,
        view_transactions s = String.intercalate "\n" lines ∧
        lines.length = s.transactions.length ∧
        ∀ i : Fin lines.length, ∃ hi : i.val < s.transactions.length,
          lines.get i = transactionLine (i.val + 1) (s.transactions.get ⟨i.val, hi⟩)) := by
  refine ⟨rfl, ?_, by decide, ?_⟩
  · intro h
    rw [view_transactions, if_pos h]
  · intro h
    refine ⟨(List.enumFrom 1 s.transactions).map fun p => transactionLine p.1 p.2,
      ?_, ?_, ?_⟩
    · rw [view_transactions, if_neg h]
    · simp
    · intro i
      have hi : i.val < s.transactions.length := by
        have hlt := i.isLt
        simpa using hlt
      refine ⟨hi, ?_⟩
      simp [List.get_eq_getElem, List.getElem_map, List.getElem_enumFrom, Nat.add_comm]

/-- A tracker whose history holds exactly one recorded expense. -/
def oneTxTracker : BudgetTracker :=
  { initial with transactions := [⟨25, "Food", "expense"⟩] }

/-- Witness for C8 at a concrete input: the one-transaction tracker has a
non-empty history and its listing is the newline-join of one line per
transaction, 1-indexed in insertion order. -/
theorem c8_transaction_listing_witness :
    oneTxTracker.transactions ≠ [] ∧
    ∃ lines : List String,
      view_transactions oneTxTracker = String.intercalate "\n" lines ∧
      lines.length = oneTxTracker.transactions.length ∧
      ∀ i : Fin lines.length, ∃ hi : i.val < oneTxTracker.transactions.length,
        lines.get i = transactionLine (i.val + 1) (oneTxTracker.transactions.get ⟨i.val, hi⟩) :=
  ⟨by decide, (c8_transaction_listing oneTxTracker).2.2.2 (by decide)⟩
